import Mathlib

/-!
Verification of the AI-assisted document synthesis & versioning engine of
`liblab_notion` against its natural-language specification.

The Python source (`src/app.py`, `src/storage_service.py`) is shallowly
embedded: SQLAlchemy tables become Lean structures, a database table state is
a list of rows in insertion order, and each request handler that the claims
mention becomes a pure Lean function from the pre-state (plus the results of
the external AI / speech-to-text calls, which are opaque collaborators) to
the post-state and the JSON reply.  A SQLAlchemy request that performs all
of its writes before a single `db.session.commit()` is one atomic state
transition, so it is embedded as one Lean function application.
-/

namespace LiblabNotion

/-! ### Versioned artifact store: `VoiceSummary` rows

`src/app.py`, `class VoiceSummary` (lines 349-360).  `id`, `created_at` are
DB-generated bookkeeping the claims do not mention; all columns the commit
writes are kept. -/

structure VoiceSummaryRow where
  workspace_id : String
  voice_note_id : Nat
  summary_html : String
  summary_version : Nat
  transcripts_count : Nat
  comments_count : Nat
  model_used : Option String
  created_by : String
  is_current : Bool
deriving DecidableEq, Repr

/-- The caller-supplied data of one `generate_voice_note_summary` commit
(`src/app.py` lines 2426-2453): everything except the version number and the
`is_current` flag, which the commit computes itself. -/
structure SummaryCommitArgs where
  workspace_id : String
  voice_note_id : Nat
  summary_html : String
  transcripts_count : Nat
  comments_count : Nat
  model_used : Option String
  created_by : String
deriving DecidableEq, Repr

/-- The `summary_version` values of the rows of one voice note, in table
order (`VoiceSummary.query.filter_by(voice_note_id=note_id)`). -/
def versionsFor (db : List VoiceSummaryRow) (n : Nat) : List Nat :=
  (db.filter (fun r => r.voice_note_id == n)).map (fun r => r.summary_version)

/-- `VoiceSummary.query.filter_by(voice_note_id=note_id).order_by(
VoiceSummary.summary_version.desc()).first()`, line 2428: the first row in
descending version order carries the maximal existing version. -/
def latestVersion (db : List VoiceSummaryRow) (n : Nat) : Option Nat :=
  (versionsFor db n).max?

/-- `VoiceSummary.query.filter_by(voice_note_id=note_id, is_current=True)
.update({'is_current': False})`, line 2432, applied to one row. -/
def flip_current (note_id : Nat) (r : VoiceSummaryRow) : VoiceSummaryRow :=
  if r.voice_note_id == note_id && r.is_current then { r with is_current := false } else r

/-- The successful commit path of `generate_voice_note_summary`
(`src/app.py` lines 2426-2453): compute `next_version` from the maximal
existing version (line 2428-2429, defaulting to 1), flip every current row
of the subject to not-current (line 2432), then insert the new row with
`is_current=True` (lines 2436-2448); all of it lands in the single
`db.session.commit()` of line 2453, hence one atomic transition. -/
def generate_voice_note_summary_commit (db : List VoiceSummaryRow)
    (a : SummaryCommitArgs) : List VoiceSummaryRow :=
  let next_version :=
    match latestVersion db a.voice_note_id with
    | some v => v + 1
    | none => 1
  (db.map (flip_current a.voice_note_id)) ++
    [{ workspace_id := a.workspace_id, voice_note_id := a.voice_note_id,
       summary_html := a.summary_html, summary_version := next_version,
       transcripts_count := a.transcripts_count, comments_count := a.comments_count,
       model_used := a.model_used, created_by := a.created_by, is_current := true }]

/-- Number of rows of voice note `n` whose `is_current` flag is set. -/
def currentCount (db : List VoiceSummaryRow) (n : Nat) : Nat :=
  (db.filter (fun r => r.voice_note_id == n && r.is_current)).length

theorem currentCount_append (db1 db2 : List VoiceSummaryRow) (n : Nat) :
    currentCount (db1 ++ db2) n = currentCount db1 n + currentCount db2 n := by
  simp [currentCount, List.filter_append]

theorem currentCount_map_flip_self (db : List VoiceSummaryRow) (n : Nat) :
    currentCount (db.map (flip_current n)) n = 0 := by
  induction db with
  | nil => rfl
  | cons r db ih =>
    simp only [List.map_cons, currentCount, List.filter_cons] at ih ⊢
    by_cases h1 : r.voice_note_id = n
    · by_cases h2 : r.is_current
      · simp [flip_current, h1, h2, currentCount] at ih ⊢
        exact ih
      · simp [flip_current, h1, h2, currentCount] at ih ⊢
        exact ih
    · simp [flip_current, h1, currentCount] at ih ⊢
      exact ih

theorem currentCount_map_flip_other (db : List VoiceSummaryRow) (n m : Nat)
    (h : m ≠ n) : currentCount (db.map (flip_current n)) m = currentCount db m := by
  induction db with
  | nil => rfl
  | cons r db ih =>
    simp only [List.map_cons, currentCount, List.filter_cons] at ih ⊢
    have hnm : ¬ n = m := fun hc => h hc.symm
    by_cases h1 : r.voice_note_id = n
    · have hm : ¬ r.voice_note_id = m := by
        rw [h1]; exact fun hc => h hc.symm
      by_cases h2 : r.is_current
      · simp [flip_current, h1, h2, hm, hnm, ih]
      · simp [flip_current, h1, h2, hm, hnm, ih]
    · by_cases hm : r.voice_note_id = m
      · have hmn : ¬ m = n := h
        by_cases h2 : r.is_current
        · simp [flip_current, h1, h2, hm, hmn, ih]
        · simp [flip_current, h1, h2, hm, hmn, ih]
      · simp [flip_current, h1, hm, ih]

theorem currentCount_commit (db : List VoiceSummaryRow) (a : SummaryCommitArgs)
    (m : Nat) (h : currentCount db m ≤ 1) :
    currentCount (generate_voice_note_summary_commit db a) m ≤ 1 := by
  unfold generate_voice_note_summary_commit
  rw [currentCount_append]
  by_cases hm : m = a.voice_note_id
  · subst hm
    rw [currentCount_map_flip_self]
    simp [currentCount]
  · rw [currentCount_map_flip_other db a.voice_note_id m hm]
    have : currentCount
        [{ workspace_id := a.workspace_id, voice_note_id := a.voice_note_id,
           summary_html := a.summary_html,
           summary_version :=
             match latestVersion db a.voice_note_id with
             | some v => v + 1
             | none => 1,
           transcripts_count := a.transcripts_count, comments_count := a.comments_count,
           model_used := a.model_used, created_by := a.created_by,
           is_current := true }] m = 0 := by
      have hne : a.voice_note_id ≠ m := fun hc => hm hc.symm
      simp [currentCount, hne]
    omega

theorem currentCount_foldl (cs : List SummaryCommitArgs) :
    ∀ db : List VoiceSummaryRow, (∀ m, currentCount db m ≤ 1) →
      ∀ m, currentCount (cs.foldl generate_voice_note_summary_commit db) m ≤ 1 := by
  induction cs with
  | nil => intro db h m; exact h m
  | cons a cs ih =>
    intro db h m
    exact ih (generate_voice_note_summary_commit db a)
      (fun m' => currentCount_commit db a m' (h m')) m

/-- **C1.** For every voice note, after any sequence of successful
`generate_voice_note_summary` commits starting from an empty `VoiceSummary`
table, at most one row with `is_current = true` exists for that voice note:
each commit first flips every existing `is_current = true` row of the
subject to `false` and then inserts the new row with `is_current = true`,
in one atomic transition. -/
theorem voice_summary_at_most_one_current (cs : List SummaryCommitArgs) (n : Nat) :
    currentCount (cs.foldl generate_voice_note_summary_commit []) n ≤ 1 :=
  currentCount_foldl cs [] (fun _ => Nat.le_succ 0) n

theorem max?_concat (l : List Nat) (x : Nat) :
    (l ++ [x]).max? = some (match l.max? with | none => x | some m => max m x) := by
  cases l with
  | nil => rfl
  | cons a as => simp [List.max?, List.foldl_append]

theorem max?_range' (k : Nat) :
    (List.range' 1 k).max? = if k = 0 then none else some k := by
  induction k with
  | zero => rfl
  | succ k ih =>
    rw [List.range'_concat, max?_concat, ih]
    cases k with
    | zero => rfl
    | succ k =>
      simp only [Nat.succ_ne_zero, if_false, if_neg (Nat.succ_ne_zero k)]
      congr 1
      omega

theorem flip_current_voice_note_id (n : Nat) (r : VoiceSummaryRow) :
    (flip_current n r).voice_note_id = r.voice_note_id := by
  unfold flip_current; split <;> rfl

theorem flip_current_summary_version (n : Nat) (r : VoiceSummaryRow) :
    (flip_current n r).summary_version = r.summary_version := by
  unfold flip_current; split <;> rfl

theorem versionsFor_map_flip (db : List VoiceSummaryRow) (n m : Nat) :
    versionsFor (db.map (flip_current n)) m = versionsFor db m := by
  unfold versionsFor
  rw [List.filter_map, List.map_map]
  simp [Function.comp_def, flip_current_voice_note_id, flip_current_summary_version]

theorem versionsFor_append (db1 db2 : List VoiceSummaryRow) (n : Nat) :
    versionsFor (db1 ++ db2) n = versionsFor db1 n ++ versionsFor db2 n := by
  simp [versionsFor, List.filter_append]

theorem versionsFor_singleton (r : VoiceSummaryRow) (n : Nat)
    (h : r.voice_note_id = n) : versionsFor [r] n = [r.summary_version] := by
  simp [versionsFor, h]

theorem versionsFor_commit_self (db : List VoiceSummaryRow) (a : SummaryCommitArgs)
    (k : Nat) (hv : versionsFor db a.voice_note_id = List.range' 1 k) :
    versionsFor (generate_voice_note_summary_commit db a) a.voice_note_id =
      List.range' 1 (k + 1) := by
  have hlatest : latestVersion db a.voice_note_id = if k = 0 then none else some k := by
    rw [latestVersion, hv, max?_range']
  unfold generate_voice_note_summary_commit
  rw [versionsFor_append, versionsFor_map_flip, hv, hlatest,
    versionsFor_singleton _ _ rfl]
  conv_rhs => rw [List.range'_concat]
  congr 1
  cases k with
  | zero => simp
  | succ k =>
    simp only [Nat.succ_ne_zero, if_false, Nat.one_mul]
    have h12 : 1 + (k + 1) = k + 1 + 1 := by omega
    rw [h12]

theorem versionsFor_commit_other (db : List VoiceSummaryRow) (a : SummaryCommitArgs)
    (n : Nat) (h : a.voice_note_id ≠ n) :
    versionsFor (generate_voice_note_summary_commit db a) n = versionsFor db n := by
  unfold generate_voice_note_summary_commit
  rw [versionsFor_append, versionsFor_map_flip]
  simp [versionsFor, h]

theorem versionsFor_foldl (n : Nat) (cs : List SummaryCommitArgs) :
    ∀ (db : List VoiceSummaryRow) (k : Nat),
      versionsFor db n = List.range' 1 k →
      versionsFor (cs.foldl generate_voice_note_summary_commit db) n =
        List.range' 1 (k + cs.countP (fun a => a.voice_note_id == n)) := by
  induction cs with
  | nil => intro db k h; simpa using h
  | cons a cs ih =>
    intro db k h
    by_cases ha : a.voice_note_id = n
    · have hv : versionsFor db a.voice_note_id = List.range' 1 k := by rwa [ha]
      have step := versionsFor_commit_self db a k hv
      rw [ha] at step
      have := ih (generate_voice_note_summary_commit db a) (k + 1) step
      simp only [List.foldl_cons, List.countP_cons, ha] at this ⊢
      simpa [Nat.add_assoc, Nat.add_comm 1] using this
    · have step := versionsFor_commit_other db a n ha
      have := ih (generate_voice_note_summary_commit db a) k (step.trans h)
      simp only [List.foldl_cons, List.countP_cons] at this ⊢
      simpa [ha] using this

/-- **C2.** For every voice note with `N` successful commits, the list of
assigned `summary_version` values (in insertion order) is exactly
`[1, …, N]` — no gaps, no repeats — for any interleaving of commits across
voice notes: each commit computes `next_version` as the maximal existing
version of the subject plus one, defaulting to 1 when no versions exist. -/
theorem voice_summary_versions_exact (cs : List SummaryCommitArgs) (n : Nat) :
    versionsFor (cs.foldl generate_voice_note_summary_commit []) n =
      List.range' 1 (cs.countP (fun a => a.voice_note_id == n)) := by
  have := versionsFor_foldl n cs [] 0 rfl
  simpa using this

/-! ### Smart notion chat: `SmartNotion`, `ChatConversation`, `smart_notion_chat`

`src/app.py` lines 293-314 (tables) and 1901-1975 (endpoint).  Timestamps
are modelled as `Nat` ticks; `id`/`created_at` bookkeeping of
`ChatConversation` rows that the endpoint never reads is kept as the
insertion timestamp. -/

structure SmartNotionRow where
  id : Nat
  workspace_id : String
  title : String
  content_html : String
  created_by : String
  created_at : Nat
  updated_at : Nat
  deleted_at : Option Nat
deriving DecidableEq, Repr

structure ChatConversationRow where
  workspace_id : String
  notion_id : Nat
  user_message : String
  ai_response : String
  created_at : Nat
deriving DecidableEq, Repr

structure NotionDb where
  notions : List SmartNotionRow
  conversations : List ChatConversationRow
deriving DecidableEq, Repr

/-- `SmartNotion.query.filter_by(workspace_id=…, id=…, deleted_at=None)
.first_or_404()` — the live-only lookup used when the `deleted_at` column
exists (`src/app.py` lines 1910-1914). -/
def find_notion_live (db : NotionDb) (ws : String) (nid : Nat) : Option SmartNotionRow :=
  db.notions.find? (fun r => r.workspace_id == ws && r.id == nid && r.deleted_at == none)

/-- `SmartNotion.query.filter_by(workspace_id=…, id=…).first_or_404()` —
the lookup without the `deleted_at` filter (`src/app.py` lines 1917-1920
and the `except` fallback at lines 1926-1929). -/
def find_notion_any (db : NotionDb) (ws : String) (nid : Nat) : Option SmartNotionRow :=
  db.notions.find? (fun r => r.workspace_id == ws && r.id == nid)

/-- The notion lookup of `smart_notion_chat` (`src/app.py` lines 1906-1931).
The filtered `first_or_404()` sits inside `try: … except Exception:`;
`first_or_404` raises werkzeug's `NotFound`, which inherits from
`Exception`, so when the filtered query finds nothing the handler falls
through to the fallback query WITHOUT the `deleted_at` filter.  Only when
that fallback also finds nothing does the 404 propagate (`none` here). -/
def smart_notion_chat_lookup (has_deleted_at : Bool) (db : NotionDb)
    (ws : String) (nid : Nat) : Option SmartNotionRow :=
  let attempt :=
    if has_deleted_at then find_notion_live db ws nid else find_notion_any db ws nid
  match attempt with
  | some r => some r
  | none => find_notion_any db ws nid

/-- The JSON reply of `smart_notion_chat`: a 404 from `first_or_404`, the
400 `'Message is required'` reply, or the 200 reply of line 1970-1975 with
its `ai_response`, `updated_content` and (always-`True`) `success` fields. -/
inductive ChatResult where
  | notFound : ChatResult
  | missingMessage : ChatResult
  | reply (ai_response : String) (updated_content : String) (success : Bool) : ChatResult
deriving DecidableEq, Repr

/-- `smart_notion_chat` (`src/app.py` lines 1901-1975) as one transition of
the persisted state.  `html_content` and `explanation` are the two results
of `extract_html_from_response(get_gemini_response(…))` at line 1952, taken
as inputs because the generative backend is an external collaborator.  When
`html_content` is non-empty the handler overwrites `content_html`, bumps
`updated_at`, appends one `ChatConversation` row and issues the single
`db.session.commit()` of line 1965 — one atomic transition here.  The ORM
identifies the mutated row by primary key `id`. -/
def smart_notion_chat_step (has_deleted_at : Bool) (db : NotionDb) (ws : String)
    (nid : Nat) (user_message html_content explanation : String) (now : Nat) :
    NotionDb × ChatResult :=
  match smart_notion_chat_lookup has_deleted_at db ws nid with
  | none => (db, ChatResult.notFound)
  | some notion =>
    if user_message = "" then (db, ChatResult.missingMessage)
    else if html_content ≠ "" then
      ({ notions := db.notions.map (fun r =>
            if r.id == notion.id then
              { r with content_html := html_content, updated_at := now }
            else r),
         conversations := db.conversations ++
           [{ workspace_id := ws, notion_id := nid, user_message := user_message,
              ai_response := explanation, created_at := now }] },
       ChatResult.reply explanation html_content true)
    else (db, ChatResult.reply explanation html_content true)

/-- **C5.** For every merge reply with non-empty content, `smart_notion_chat`
overwrites the notion's `content_html`, bumps `updated_at`, and appends
exactly one `ChatConversation` row holding the original instruction and the
explanation, all in the single transition that ends in one
`db.session.commit()`: the post-state has the updated content and the new
conversation row together, so no reachable state has one without the other. -/
theorem smart_notion_chat_apply_merge (has_deleted_at : Bool) (db : NotionDb)
    (ws : String) (nid : Nat) (msg html expl : String) (now : Nat)
    (notion : SmartNotionRow)
    (hfound : smart_notion_chat_lookup has_deleted_at db ws nid = some notion)
    (hmsg : msg ≠ "") (hhtml : html ≠ "") :
    smart_notion_chat_step has_deleted_at db ws nid msg html expl now =
      ({ notions := db.notions.map (fun r =>
            if r.id == notion.id then
              { r with content_html := html, updated_at := now }
            else r),
         conversations := db.conversations ++
           [{ workspace_id := ws, notion_id := nid, user_message := msg,
              ai_response := expl, created_at := now }] },
       ChatResult.reply expl html true) := by
  unfold smart_notion_chat_step
  rw [hfound]
  simp [hmsg, hhtml]

/-- A live notion holding the spec §8 scenario content. -/
def rowC5 : SmartNotionRow :=
  { id := 1, workspace_id := "ws-general", title := "ملاحظة", content_html := "<div>X</div>",
    created_by := "مجهول", created_at := 0, updated_at := 0, deleted_at := none }

def dbC5 : NotionDb := { notions := [rowC5], conversations := [] }

theorem smart_notion_chat_apply_merge_witness :
    smart_notion_chat_lookup true dbC5 "ws-general" 1 = some rowC5 ∧
    ("أضف جدول" ≠ "") ∧ ("<div>X</div><div>TABLE</div>" ≠ "") ∧
    smart_notion_chat_step true dbC5 "ws-general" 1 "أضف جدول"
        "<div>X</div><div>TABLE</div>" "تمت إضافة الجدول" 9 =
      ({ notions := dbC5.notions.map (fun r =>
            if r.id == rowC5.id then
              { r with content_html := "<div>X</div><div>TABLE</div>", updated_at := 9 }
            else r),
         conversations := dbC5.conversations ++
           [{ workspace_id := "ws-general", notion_id := 1, user_message := "أضف جدول",
              ai_response := "تمت إضافة الجدول", created_at := 9 }] },
       ChatResult.reply "تمت إضافة الجدول" "<div>X</div><div>TABLE</div>" true) :=
  ⟨by decide, by decide, by decide,
    smart_notion_chat_apply_merge true dbC5 "ws-general" 1 "أضف جدول"
      "<div>X</div><div>TABLE</div>" "تمت إضافة الجدول" 9 rowC5
      (by decide) (by decide) (by decide)⟩

/-- **C3 (amended).** For every merge reply whose content is empty,
`smart_notion_chat` performs no mutation — the notions and the conversation
rows are exactly the pre-state — but the JSON reply still carries
`success = true` with the empty `updated_content`; the caller is NOT given
an explicit failure signal. -/
theorem smart_notion_chat_empty_merge (has_deleted_at : Bool) (db : NotionDb)
    (ws : String) (nid : Nat) (msg expl : String) (now : Nat)
    (notion : SmartNotionRow)
    (hfound : smart_notion_chat_lookup has_deleted_at db ws nid = some notion)
    (hmsg : msg ≠ "") :
    smart_notion_chat_step has_deleted_at db ws nid msg "" expl now =
      (db, ChatResult.reply expl "" true) := by
  unfold smart_notion_chat_step
  rw [hfound]
  simp [hmsg]

def rowC3 : SmartNotionRow :=
  { id := 2, workspace_id := "ws-general", title := "تقرير", content_html := "<div>Y</div>",
    created_by := "سارة", created_at := 0, updated_at := 3, deleted_at := none }

def dbC3 : NotionDb := { notions := [rowC3], conversations := [] }

/-- **C3, counterexample.**  On a merge reply with empty content the
persisted state is indeed untouched, but the endpoint's reply is the
HTTP-200 JSON of `src/app.py` lines 1970-1975 with `success = true` — the
caller is not told that generation failed, refuting the second half of the
claim. -/
theorem smart_notion_chat_empty_merge_reports_success :
    (smart_notion_chat_step true dbC3 "ws-general" 2 "لخص الصفحة" "" "حدث خطأ" 7).1 = dbC3 ∧
    (smart_notion_chat_step true dbC3 "ws-general" 2 "لخص الصفحة" "" "حدث خطأ" 7).2 =
      ChatResult.reply "حدث خطأ" "" true := by
  constructor
  · decide
  · decide

theorem smart_notion_chat_empty_merge_witness :
    smart_notion_chat_lookup true dbC3 "ws-general" 2 = some rowC3 ∧ ("لخص" ≠ "") ∧
    smart_notion_chat_step true dbC3 "ws-general" 2 "لخص" "" "شرح" 7 =
      (dbC3, ChatResult.reply "شرح" "" true) :=
  ⟨by decide, by decide,
    smart_notion_chat_empty_merge true dbC3 "ws-general" 2 "لخص" "شرح" 7 rowC3
      (by decide) (by decide)⟩

/-- A soft-deleted notion (`deleted_at` set). -/
def rowC4 : SmartNotionRow :=
  { id := 3, workspace_id := "ws-general", title := "محذوفة", content_html := "<div>Z</div>",
    created_by := "مجهول", created_at := 0, updated_at := 0, deleted_at := some 5 }

def dbC4 : NotionDb := { notions := [rowC4], conversations := [] }

/-- **C4 (code bug).** A chat against a soft-deleted notion does NOT fail
with `NotFound`: the `deleted_at`-filtered `first_or_404()` raises
werkzeug's `NotFound`, which the surrounding `except Exception` of
`src/app.py` lines 1924-1931 catches, and the fallback query without the
`deleted_at` filter finds the soft-deleted row — so the chat proceeds and
mutates the soft-deleted document, contradicting the claim and the code's
own comment `# Only allow chat with non-deleted notions`. -/
theorem smart_notion_chat_mutates_soft_deleted :
    smart_notion_chat_lookup true dbC4 "ws-general" 3 = some rowC4 ∧
    smart_notion_chat_step true dbC4 "ws-general" 3 "أضف فقرة"
        "<div>Z</div><div>W</div>" "تمت الإضافة" 9 =
      ({ notions := [{ rowC4 with content_html := "<div>Z</div><div>W</div>", updated_at := 9 }],
         conversations := [{ workspace_id := "ws-general", notion_id := 3,
                             user_message := "أضف فقرة", ai_response := "تمت الإضافة",
                             created_at := 9 }] },
       ChatResult.reply "تمت الإضافة" "<div>Z</div><div>W</div>" true) := by
  constructor
  · decide
  · decide

/-! ### `convert_markdown_to_html` (`src/app.py` lines 832-877)

The function is a pipeline of five `re.sub` calls followed by a line loop.
Characters are processed as `List Char`.  In every pattern `.` does not
match `'\n'`, so no match ever spans a line break; the `^…$`/`MULTILINE`
heading patterns match exactly the lines that start with the heading
marker, with `(.*?)$` capturing the whole rest of the line. -/

/-- Python's default `str.strip()` / regex `\s` whitespace (ASCII range,
which is all the pipeline ever produces or tests). -/
def pyIsSpace (c : Char) : Bool :=
  c = ' ' || c = '\t' || c = '\n' || c = '\r' || c = '\x0b' || c = '\x0c'

/-- Python `str.strip()`. -/
def pyStrip (s : List Char) : List Char :=
  ((s.dropWhile pyIsSpace).reverse.dropWhile pyIsSpace).reverse

/-- Find the closing `**` of `r'\*\*(.*?)\*\*'`: lazily scan for the next
adjacent star pair, failing at a newline (`.` does not match `'\n'`).
Returns the captured content and the remainder after the closing pair. -/
def findC2 : List Char → Option (List Char × List Char)
  | [] => none
  | c :: rest =>
    if c = '\n' then none
    else if c = '*' ∧ rest.head? = some '*' then some ([], rest.tail)
    else (findC2 rest).map (fun p => (c :: p.1, p.2))

/-- Find the closing `*` of `r'\*(.*?)\*'`, as in `findC2`. -/
def findC1 : List Char → Option (List Char × List Char)
  | [] => none
  | c :: rest =>
    if c = '\n' then none
    else if c = '*' then some ([], rest)
    else (findC1 rest).map (fun p => (c :: p.1, p.2))

def strongOpen : List Char := "<strong class=\"font-bold text-gray-900\">".toList
def strongClose : List Char := "</strong>".toList
def emOpen : List Char := "<em class=\"italic\">".toList
def emClose : List Char := "</em>".toList

/-- `re.sub(r'\*\*(.*?)\*\*', r'<strong class="font-bold text-gray-900">\1</strong>', text)`:
leftmost non-overlapping lazy matches; on failure at a position the scan
advances one character.  The recursion is indexed by a fuel so it stays
structural (and so computable by the kernel); every step consumes at least
one input character, so `boldSub` below supplies `s.length` as fuel and the
`0` case is never reached on its own calls. -/
def boldSubAux : Nat → List Char → List Char
  | 0, s => s
  | _ + 1, [] => []
  | fuel + 1, c :: rest =>
    if c = '*' ∧ rest.head? = some '*' then
      match findC2 rest.tail with
      | some (content, rest') => strongOpen ++ content ++ strongClose ++ boldSubAux fuel rest'
      | none => c :: boldSubAux fuel rest
    else c :: boldSubAux fuel rest

def boldSub (s : List Char) : List Char := boldSubAux s.length s

/-- `re.sub(r'\*(.*?)\*', r'<em class="italic">\1</em>', text)`, fuelled as
in `boldSubAux`. -/
def italicSubAux : Nat → List Char → List Char
  | 0, s => s
  | _ + 1, [] => []
  | fuel + 1, c :: rest =>
    if c = '*' then
      match findC1 rest with
      | some (content, rest') => emOpen ++ content ++ emClose ++ italicSubAux fuel rest'
      | none => c :: italicSubAux fuel rest
    else c :: italicSubAux fuel rest

def italicSub (s : List Char) : List Char := italicSubAux s.length s

def h3Open : List Char :=
  "<h3 dir=\"rtl\" class=\"text-lg font-bold text-cyan-900 mb-3 mt-4\">".toList
def h3Close : List Char := "</h3>".toList
def h2Open : List Char :=
  "<h2 dir=\"rtl\" class=\"text-xl font-bold text-cyan-950 mb-4 mt-6\">".toList
def h2Close : List Char := "</h2>".toList
def h1Open : List Char :=
  "<h1 dir=\"rtl\" class=\"text-2xl font-bold text-cyan-950 mb-4 mt-6\">".toList
def h1Close : List Char := "</h1>".toList

/-- One line under `re.sub(r'^### (.*?)$', …, text, flags=re.MULTILINE)`:
a line starting with `"### "` is rewritten whole (the lazy `(.*?)$` expands
to the rest of the line), any other line is untouched. -/
def h3Line (line : List Char) : List Char :=
  if line.take 4 = ['#', '#', '#', ' '] then h3Open ++ line.drop 4 ++ h3Close else line

def h2Line (line : List Char) : List Char :=
  if line.take 3 = ['#', '#', ' '] then h2Open ++ line.drop 3 ++ h2Close else line

def h1Line (line : List Char) : List Char :=
  if line.take 2 = ['#', ' '] then h1Open ++ line.drop 2 ++ h1Close else line

/-- Python `text.split('\n')`. -/
def splitLines : List Char → List (List Char)
  | [] => [[]]
  | c :: rest =>
    if c = '\n' then [] :: splitLines rest
    else
      match splitLines rest with
      | l :: ls => (c :: l) :: ls
      | [] => [[c]]

/-- Python `'\n'.join(lines)`. -/
def joinLines : List (List Char) → List Char
  | [] => []
  | [l] => l
  | l :: ls => l ++ '\n' :: joinLines ls

/-- A `MULTILINE` `^…$` substitution acts on each line separately ( `.`
does not match `'\n'` and the replacements contain none), so it is the
line-wise map. -/
def h3Sub (s : List Char) : List Char := joinLines ((splitLines s).map h3Line)
def h2Sub (s : List Char) : List Char := joinLines ((splitLines s).map h2Line)
def h1Sub (s : List Char) : List Char := joinLines ((splitLines s).map h1Line)

def ulOpenLine : List Char :=
  "<ul dir=\"rtl\" class=\"list-disc list-inside space-y-2 mb-4 mr-4\">".toList
def ulCloseLine : List Char := "</ul>".toList
def liOpen : List Char := "<li class=\"text-gray-700\">".toList
def liClose : List Char := "</li>".toList
def pOpen : List Char := "<p dir=\"rtl\" class=\"text-gray-700 mb-3 leading-relaxed\">".toList
def pClose : List Char := "</p>".toList

/-- `stripped.startswith('- ') or stripped.startswith('• ')`. -/
def isBulletLine (stripped : List Char) : Bool :=
  stripped.take 2 = ['-', ' '] || stripped.take 2 = ['•', ' ']

/-- The bullet-list loop of `convert_markdown_to_html` (lines 853-875),
carrying the `in_list` flag; the final `if in_list: append('</ul>')` is the
`[]` case. -/
def bulletLoop : List (List Char) → Bool → List (List Char)
  | [], in_list => if in_list then [ulCloseLine] else []
  | line :: rest, in_list =>
    let stripped := pyStrip line
    if isBulletLine stripped then
      let list_item := pyStrip (stripped.drop 2)
      let li := liOpen ++ list_item ++ liClose
      if in_list then li :: bulletLoop rest true
      else ulOpenLine :: li :: bulletLoop rest true
    else
      let tailLines :=
        if stripped ≠ [] then (pOpen ++ line ++ pClose) :: bulletLoop rest false
        else line :: bulletLoop rest false
      if in_list then ulCloseLine :: tailLines else tailLines

/-- The character-level pipeline of `convert_markdown_to_html` for non-empty
input: the five `re.sub` passes followed by the bullet-list line loop. -/
def convertChars (text : List Char) : List Char :=
  joinLines (bulletLoop (splitLines (h1Sub (h2Sub (h3Sub (italicSub (boldSub text)))))) false)

/-- `convert_markdown_to_html` (`src/app.py` lines 832-877); `if not text:
return text` is the empty-string test. -/
def convert_markdown_to_html (text : String) : String :=
  if text = "" then text else String.mk (convertChars text.toList)

set_option maxRecDepth 100000

/-- **C7, counterexample.** Normalization is not idempotent: already on the
plain word `"hello"` the first pass wraps the line in a paragraph tag and
the second pass wraps that paragraph line in another one, so
`normalize(normalize(x)) ≠ normalize(x)`. -/
theorem convert_markdown_not_idempotent :
    convert_markdown_to_html (convert_markdown_to_html "hello") ≠
      convert_markdown_to_html "hello" := by decide

theorem boldSubAux_no_star (fuel : Nat) :
    ∀ s : List Char, (∀ c ∈ s, c ≠ '*') → boldSubAux fuel s = s := by
  induction fuel with
  | zero => intro s _; rfl
  | succ fuel ih =>
    intro s h
    cases s with
    | nil => rfl
    | cons c rest =>
      have hc : c ≠ '*' := h c (List.mem_cons_self c rest)
      have hcond : ¬ (c = '*' ∧ rest.head? = some '*') := fun hh => hc hh.1
      simp only [boldSubAux, if_neg hcond]
      rw [ih rest (fun x hx => h x (List.mem_cons_of_mem c hx))]

theorem boldSub_no_star (s : List Char) (h : ∀ c ∈ s, c ≠ '*') : boldSub s = s :=
  boldSubAux_no_star s.length s h

theorem italicSubAux_no_star (fuel : Nat) :
    ∀ s : List Char, (∀ c ∈ s, c ≠ '*') → italicSubAux fuel s = s := by
  induction fuel with
  | zero => intro s _; rfl
  | succ fuel ih =>
    intro s h
    cases s with
    | nil => rfl
    | cons c rest =>
      have hc : c ≠ '*' := h c (List.mem_cons_self c rest)
      simp only [italicSubAux, if_neg hc]
      rw [ih rest (fun x hx => h x (List.mem_cons_of_mem c hx))]

theorem italicSub_no_star (s : List Char) (h : ∀ c ∈ s, c ≠ '*') : italicSub s = s :=
  italicSubAux_no_star s.length s h

theorem splitLines_ne_nil (s : List Char) : splitLines s ≠ [] := by
  cases s with
  | nil => simp [splitLines]
  | cons c rest =>
    simp only [splitLines]
    split
    · simp
    · split <;> simp

theorem splitLines_ws (s : List Char) (h : ∀ c ∈ s, pyIsSpace c) :
    ∀ l ∈ splitLines s, ∀ c ∈ l, pyIsSpace c := by
  induction s with
  | nil =>
    intro l hl c hc
    simp [splitLines] at hl
    subst hl
    simp at hc
  | cons a rest ih =>
    intro l hl c hc
    have ha : pyIsSpace a := h a (List.mem_cons_self a rest)
    have hrest : ∀ x ∈ rest, pyIsSpace x := fun x hx => h x (List.mem_cons_of_mem a hx)
    by_cases hn : a = '\n'
    · simp only [splitLines, if_pos hn] at hl
      rcases List.mem_cons.mp hl with h1 | h1
      · subst h1; simp at hc
      · exact ih hrest l h1 c hc
    · simp only [splitLines, if_neg hn] at hl
      obtain ⟨l', ls, heq⟩ := List.exists_cons_of_ne_nil (splitLines_ne_nil rest)
      rw [heq] at hl
      have hl'mem : l' ∈ splitLines rest := by
        rw [heq]; exact List.mem_cons_self l' ls
      rcases List.mem_cons.mp hl with h1 | h1
      · subst h1
        rcases List.mem_cons.mp hc with h2 | h2
        · rw [h2]; exact ha
        · exact ih hrest l' hl'mem c h2
      · have hlmem : l ∈ splitLines rest := by
          rw [heq]; exact List.mem_cons_of_mem l' h1
        exact ih hrest l hlmem c hc

theorem joinLines_splitLines (s : List Char) : joinLines (splitLines s) = s := by
  induction s with
  | nil => rfl
  | cons c rest ih =>
    obtain ⟨l, ls, heq⟩ := List.exists_cons_of_ne_nil (splitLines_ne_nil rest)
    by_cases hn : c = '\n'
    · subst hn
      simp only [splitLines, if_pos rfl]
      rw [heq]
      show [] ++ '\n' :: joinLines (l :: ls) = '\n' :: rest
      rw [← heq, ih]
      rfl
    · simp only [splitLines, if_neg hn]
      rw [heq]
      cases ls with
      | nil =>
        show c :: l = c :: rest
        have : joinLines (splitLines rest) = rest := ih
        rw [heq] at this
        simpa [joinLines] using this
      | cons l2 ls2 =>
        show (c :: l) ++ '\n' :: joinLines (l2 :: ls2) = c :: rest
        have : joinLines (splitLines rest) = rest := ih
        rw [heq] at this
        show c :: (l ++ '\n' :: joinLines (l2 :: ls2)) = c :: rest
        rw [show l ++ '\n' :: joinLines (l2 :: ls2) = rest from this]

theorem h3Line_ws (l : List Char) (h : ∀ c ∈ l, pyIsSpace c) : h3Line l = l := by
  unfold h3Line
  rw [if_neg]
  intro heq
  have hmem : '#' ∈ l.take 4 := by rw [heq]; simp
  exact absurd (h '#' (List.mem_of_mem_take hmem)) (by decide)

theorem h2Line_ws (l : List Char) (h : ∀ c ∈ l, pyIsSpace c) : h2Line l = l := by
  unfold h2Line
  rw [if_neg]
  intro heq
  have hmem : '#' ∈ l.take 3 := by rw [heq]; simp
  exact absurd (h '#' (List.mem_of_mem_take hmem)) (by decide)

theorem h1Line_ws (l : List Char) (h : ∀ c ∈ l, pyIsSpace c) : h1Line l = l := by
  unfold h1Line
  rw [if_neg]
  intro heq
  have hmem : '#' ∈ l.take 2 := by rw [heq]; simp
  exact absurd (h '#' (List.mem_of_mem_take hmem)) (by decide)

theorem h3Sub_ws (s : List Char) (h : ∀ c ∈ s, pyIsSpace c) : h3Sub s = s := by
  unfold h3Sub
  have hmap : (splitLines s).map h3Line = (splitLines s).map id :=
    List.map_congr_left (fun l hm => h3Line_ws l (splitLines_ws s h l hm))
  rw [hmap, List.map_id, joinLines_splitLines]

theorem h2Sub_ws (s : List Char) (h : ∀ c ∈ s, pyIsSpace c) : h2Sub s = s := by
  unfold h2Sub
  have hmap : (splitLines s).map h2Line = (splitLines s).map id :=
    List.map_congr_left (fun l hm => h2Line_ws l (splitLines_ws s h l hm))
  rw [hmap, List.map_id, joinLines_splitLines]

theorem h1Sub_ws (s : List Char) (h : ∀ c ∈ s, pyIsSpace c) : h1Sub s = s := by
  unfold h1Sub
  have hmap : (splitLines s).map h1Line = (splitLines s).map id :=
    List.map_congr_left (fun l hm => h1Line_ws l (splitLines_ws s h l hm))
  rw [hmap, List.map_id, joinLines_splitLines]

theorem pyStrip_eq_nil (l : List Char) (h : ∀ c ∈ l, pyIsSpace c) : pyStrip l = [] := by
  unfold pyStrip
  have h1 : l.dropWhile pyIsSpace = [] := by
    rw [List.dropWhile_eq_nil_iff]
    exact h
  rw [h1]
  rfl

theorem bulletLoop_blank (ls : List (List Char))
    (h : ∀ l ∈ ls, ∀ c ∈ l, pyIsSpace c) : bulletLoop ls false = ls := by
  induction ls with
  | nil => rfl
  | cons line rest ih =>
    have hstr : pyStrip line = [] :=
      pyStrip_eq_nil line (h line (List.mem_cons_self line rest))
    have hb : isBulletLine ([] : List Char) = false := by decide
    simp only [bulletLoop, hstr, hb, Bool.false_eq_true, if_false, ne_eq,
      not_true_eq_false]
    rw [ih (fun l hm c hc => h l (List.mem_cons_of_mem line hm) c hc)]

theorem convertChars_ws (s : List Char) (h : ∀ c ∈ s, pyIsSpace c) :
    convertChars s = s := by
  have hstar : ∀ c ∈ s, c ≠ '*' := by
    intro c hc heq
    subst heq
    exact absurd (h _ hc) (by decide)
  unfold convertChars
  rw [boldSub_no_star s hstar, italicSub_no_star s hstar, h3Sub_ws s h, h2Sub_ws s h,
    h1Sub_ws s h, bulletLoop_blank (splitLines s) (splitLines_ws s h), joinLines_splitLines]

/-- **C7 (amended).** `convert_markdown_to_html` is NOT idempotent on
content with visible text (see the counterexample): every pass wraps each
non-blank non-bullet line in a fresh paragraph tag.  It acts as the
identity — and is therefore idempotent — exactly on whitespace-only
content, where no rule fires and every line is left as-is. -/
theorem convert_markdown_idempotent_on_blank (x : String)
    (h : ∀ c ∈ x.toList, pyIsSpace c) :
    convert_markdown_to_html x = x ∧
    convert_markdown_to_html (convert_markdown_to_html x) = convert_markdown_to_html x := by
  have hid : convert_markdown_to_html x = x := by
    unfold convert_markdown_to_html
    by_cases hx : x = ""
    · simp [hx]
    · rw [if_neg hx, convertChars_ws x.toList h]
      rfl
  exact ⟨hid, by rw [hid, hid]⟩

theorem convert_markdown_idempotent_on_blank_witness :
    (∀ c ∈ ("\n \n" : String).toList, pyIsSpace c) ∧
    (convert_markdown_to_html "\n \n" = "\n \n" ∧
     convert_markdown_to_html (convert_markdown_to_html "\n \n") =
       convert_markdown_to_html "\n \n") :=
  ⟨by decide, convert_markdown_idempotent_on_blank "\n \n" (by decide)⟩

/-! ### `extract_html_from_response` (`src/app.py` lines 879-919)

`json.loads` is a library routine, so the structured parser is an oracle
argument `parseJson`: `some` is a parse into a JSON object (field lookups
with Python's `dict.get` defaults), `none` is `json.JSONDecodeError`, whose
`str(e)` is the `errMsg` argument. -/

structure GeminiReplyJson where
  action : Option String
  html_content : Option String
  explanation : Option String
deriving DecidableEq, Repr

/-- Fence stripping before parsing (lines 881-890): `strip()`, drop a
leading `'```json'`, then a (possibly remaining) leading `'```'`, drop a
trailing `'```'`, `strip()` again. -/
def stripFencesForParse (s : List Char) : List Char :=
  let c0 := pyStrip s
  let c1 := if c0.take 7 = "```json".toList then c0.drop 7 else c0
  let c2 := if c1.take 3 = "```".toList then c1.drop 3 else c1
  let c3 := if c2.reverse.take 3 = "```".toList then c2.take (c2.length - 3) else c2
  pyStrip c3

/-- `re.sub(r'```json|```', '', ai_response)` of the failure path (line
916): delete every occurrence, the alternation preferring `'```json'`.
Fuelled as in `boldSubAux`; every step consumes at least one character. -/
def removeFencesAux : Nat → List Char → List Char
  | 0, s => s
  | _ + 1, [] => []
  | fuel + 1, c :: rest =>
    if c = '`' ∧ rest.take 2 = ['`', '`'] then
      if (rest.drop 2).take 4 = ['j', 's', 'o', 'n'] then
        removeFencesAux fuel ((rest.drop 2).drop 4)
      else removeFencesAux fuel (rest.drop 2)
    else c :: removeFencesAux fuel rest

def removeFences (s : List Char) : List Char := removeFencesAux s.length s

/-- `html_content.replace('\\n', '\n')` (line 898): replace each
backslash-`n` pair, scanning left to right. -/
def replaceEscapedNewlinesAux : Nat → List Char → List Char
  | 0, s => s
  | _ + 1, [] => []
  | fuel + 1, c :: rest =>
    if c = '\\' ∧ rest.head? = some 'n' then
      '\n' :: replaceEscapedNewlinesAux fuel rest.tail
    else c :: replaceEscapedNewlinesAux fuel rest

def replaceEscapedNewlines (s : List Char) : List Char :=
  replaceEscapedNewlinesAux s.length s

/-- `re.sub(r'\n\s*\n\s*\n+', '\n\n', html_content)` (line 899).  A
leftmost match starts at a `'\n'`; with greedy backtracking it covers the
maximal whitespace run from there through the run's last `'\n'`, and exists
iff that run holds at least three newlines.  The match is replaced by two
newlines and scanning resumes after it. -/
def collapseBlankAux : Nat → List Char → List Char
  | 0, s => s
  | _ + 1, [] => []
  | fuel + 1, c :: rest =>
    if c = '\n' then
      let run := List.takeWhile pyIsSpace (c :: rest)
      if 3 ≤ run.countP (fun x => x = '\n') then
        let keep := run.length - (run.reverse.takeWhile (fun x => x != '\n')).length
        '\n' :: '\n' :: collapseBlankAux fuel ((c :: rest).drop keep)
      else c :: collapseBlankAux fuel rest
    else c :: collapseBlankAux fuel rest

def collapseBlankRuns (s : List Char) : List Char := collapseBlankAux s.length s

/-- The action-dependent explanation prefixes of lines 906-911. -/
def enhanceExplanation (action explanation : String) : String :=
  if action = "add" ∧ explanation ≠ "" then
    "✅ تم إضافة المحتوى الجديد مع الحفاظ على المحتوى السابق - " ++ explanation
  else if action = "modify" ∧ explanation ≠ "" then
    "✏️ تم تعديل المحتوى المحدد - " ++ explanation
  else if action = "replace" ∧ explanation ≠ "" then
    "🔄 تم استبدال المحتوى كما طُلب - " ++ explanation
  else explanation

/-- `extract_html_from_response` (`src/app.py` lines 879-919).  On a parse
success the `html_content` field (default `""`) is unescaped, its blank
runs collapsed, stripped and markdown-normalized when non-empty, and the
explanation gets its action prefix; on `json.JSONDecodeError` the whole raw
reply, fences removed and stripped, is markdown-normalized and returned
with the synthesized `'تم استخراج المحتوى: ' + str(e)` explanation. -/
def extract_html_from_response (parseJson : String → Option GeminiReplyJson)
    (errMsg : String) (ai_response : String) : String × String :=
  let cleaned := String.mk (stripFencesForParse ai_response.toList)
  match parseJson cleaned with
  | some d =>
    let html_content := d.html_content.getD ""
    let explanation := d.explanation.getD ""
    let action := d.action.getD "add"
    let html1 :=
      if html_content ≠ "" then
        convert_markdown_to_html (String.mk (pyStrip (collapseBlankRuns
          (replaceEscapedNewlines html_content.toList))))
      else html_content
    (html1, enhanceExplanation action explanation)
  | none =>
    (convert_markdown_to_html (String.mk (pyStrip (removeFences ai_response.toList))),
     "تم استخراج المحتوى: " ++ errMsg)

/-- **C6.** When structured parsing of the (fence-stripped) reply fails,
`extract_html_from_response` returns the ENTIRE raw reply — fences removed,
stripped, markdown-normalized — as the content, paired with a synthesized
explanation carrying the fallback marker and the parse error: user-visible
output is never dropped because of a formatting defect. -/
theorem extract_html_fallback (parseJson : String → Option GeminiReplyJson)
    (errMsg raw : String)
    (h : parseJson (String.mk (stripFencesForParse raw.toList)) = none) :
    extract_html_from_response parseJson errMsg raw =
      (convert_markdown_to_html (String.mk (pyStrip (removeFences raw.toList))),
       "تم استخراج المحتوى: " ++ errMsg) := by
  unfold extract_html_from_response
  simp only [h]

theorem extract_html_fallback_witness :
    ((fun _ : String => (none : Option GeminiReplyJson))
        (String.mk (stripFencesForParse "```json\nليس كائن JSON".toList)) = none) ∧
    extract_html_from_response (fun _ => none) "Expecting value" "```json\nليس كائن JSON" =
      (convert_markdown_to_html
        (String.mk (pyStrip (removeFences "```json\nليس كائن JSON".toList))),
       "تم استخراج المحتوى: " ++ "Expecting value") :=
  ⟨rfl, extract_html_fallback (fun _ => none) "Expecting value" "```json\nليس كائن JSON" rfl⟩

/-! ### Gemini model selection (`src/app.py` lines 595-671, 1967-1974, 2435)

The environment seen by one request: whether `GEMINI_ENABLED` is set and
the names returned by `genai.list_models()` that support `generateContent`
(fixed for the duration of the request in this embedding). -/

structure GeminiEnv where
  enabled : Bool
  available : List String
deriving DecidableEq, Repr

/-- The `preferred_models` list of `get_best_gemini_model` (lines 603-612). -/
def gemini_preferred_models : List String :=
  ["models/gemini-2.5-flash",
   "models/gemini-2.5-pro",
   "models/gemini-2.5-pro-preview-06-05",
   "models/gemini-2.0-flash-exp",
   "models/gemini-1.5-pro",
   "models/gemini-1.5-flash",
   "models/gemini-pro",
   "models/gemini-1.0-pro"]

/-- The `allowed_models` allow-list of `is_valid_gemini_model`
(lines 635-638). -/
def gemini_allowed_models : List String :=
  ["models/gemini-2.5-flash", "models/gemini-2.5-pro"]

/-- `get_best_gemini_model` (lines 595-627): first preferred model that is
available, else the first available model, else `None`. -/
def get_best_gemini_model (env : GeminiEnv) : Option String :=
  if !env.enabled then none
  else
    match gemini_preferred_models.find? (fun m => env.available.contains m) with
    | some m => some m
    | none => env.available.head?

/-- `is_valid_gemini_model` (lines 629-648): `False` when disabled or the
name is falsy, when the name is outside the allow-list, or when it is not
in the available list. -/
def is_valid_gemini_model (env : GeminiEnv) (model_name : Option String) : Bool :=
  match model_name with
  | none => false
  | some m =>
    env.enabled && m != "" && gemini_allowed_models.contains m && env.available.contains m

/-- The `model_name` that `get_gemini_response` (lines 661-666) hands to
`genai.GenerativeModel` when the backend is enabled:
`preferred_model if preferred_model and is_valid_gemini_model(preferred_model)
else get_best_gemini_model()`. -/
def gemini_served_model (env : GeminiEnv) (preferred : Option String) : Option String :=
  match preferred with
  | some m => if m != "" && is_valid_gemini_model env (some m) then some m
              else get_best_gemini_model env
  | none => get_best_gemini_model env

/-- The `actual_model` reported to the caller as `model_used`
(`src/app.py` line 1968, and identically line 2435):
`preferred_model if is_valid_gemini_model(preferred_model) else
get_best_gemini_model()`. -/
def gemini_reported_model (env : GeminiEnv) (preferred : Option String) : Option String :=
  if is_valid_gemini_model env preferred then preferred else get_best_gemini_model env

/-- **C8.** For every requested generator identifier outside the allow-list
or not available, the served model silently falls back to the best
available default, and the `model_used` identifier reported to the caller
equals the identifier that actually served the request. -/
theorem gemini_model_substitution (env : GeminiEnv) (m : String)
    (h : ¬ (m ∈ gemini_allowed_models ∧ m ∈ env.available)) :
    gemini_served_model env (some m) = get_best_gemini_model env ∧
    gemini_reported_model env (some m) = gemini_served_model env (some m) := by
  have hvalid : is_valid_gemini_model env (some m) = false := by
    unfold is_valid_gemini_model
    by_cases ha : m ∈ gemini_allowed_models
    · have hb : m ∉ env.available := fun hb => h ⟨ha, hb⟩
      have hb' : env.available.contains m = false := by
        rw [← Bool.not_eq_true]
        intro hc
        exact hb (List.elem_iff.mp hc)
      simp [hb']
      exact fun _ _ _ => hb
    · have ha' : gemini_allowed_models.contains m = false := by
        rw [← Bool.not_eq_true]
        intro hc
        exact ha (List.elem_iff.mp hc)
      simp [ha']
      exact fun _ _ hmem => absurd hmem ha
  constructor
  · unfold gemini_served_model
    simp [hvalid]
  · unfold gemini_reported_model gemini_served_model
    simp [hvalid]

theorem gemini_model_substitution_witness :
    (¬ ("models/gemini-9999" ∈ gemini_allowed_models ∧
        "models/gemini-9999" ∈ ["models/gemini-2.5-flash"])) ∧
    (gemini_served_model ⟨true, ["models/gemini-2.5-flash"]⟩ (some "models/gemini-9999") =
       get_best_gemini_model ⟨true, ["models/gemini-2.5-flash"]⟩ ∧
     gemini_reported_model ⟨true, ["models/gemini-2.5-flash"]⟩ (some "models/gemini-9999") =
       gemini_served_model ⟨true, ["models/gemini-2.5-flash"]⟩ (some "models/gemini-9999")) :=
  ⟨by decide, gemini_model_substitution ⟨true, ["models/gemini-2.5-flash"]⟩
    "models/gemini-9999" (by decide)⟩

/-! ### Storage backends (`src/storage_service.py`)

File stores are finite association lists from path/key to byte content
(bytes as `List Nat`); filenames inside one store are unique, as the
filesystem and the object store guarantee. -/

structure LocalFs where
  files : List (String × List Nat)
deriving DecidableEq, Repr

/-- `LocalStorageService._get_file_path` (line 382-384):
`os.path.join(self.base_path, filename)` for a relative filename. -/
def local_file_path (base_path filename : String) : String :=
  base_path ++ "/" ++ filename

/-- `os.path.exists`. -/
def fs_exists (fs : LocalFs) (path : String) : Bool :=
  fs.files.any (fun p => p.1 == path)

/-- `LocalStorageService.delete_file` (lines 423-434): remove the file and
return `True` if `os.path.exists(file_path)`, otherwise return `False`. -/
def local_delete_file (fs : LocalFs) (base_path filename : String) : LocalFs × Bool :=
  let file_path := local_file_path base_path filename
  if fs_exists fs file_path then
    ({ files := fs.files.filter (fun p => p.1 != file_path) }, true)
  else (fs, false)

structure S3State where
  objects : List (String × List Nat)
deriving DecidableEq, Repr

/-- `S3StorageService._get_s3_key` (lines 133-135) with the
`f"{workspace_id}/recordings/"` folder of line 108. -/
def s3_key (workspace_id filename : String) : String :=
  workspace_id ++ "/recordings/" ++ filename

/-- `S3StorageService.delete_file` (lines 223-238): `delete_object`
succeeds whether or not the key exists (S3 deletion of an absent key is
not an error), so the method returns `True`; only a `ClientError` from the
service would yield `False`, and deleting a missing key raises none. -/
def s3_delete_file (st : S3State) (workspace_id filename : String) : S3State × Bool :=
  ({ objects := st.objects.filter (fun p => p.1 != s3_key workspace_id filename) }, true)

/-- **C9, counterexample.** `LocalStorageService.delete_file` on a missing
key returns `False`, not `True`: the `if os.path.exists` branch falls
through to `return False`.  (Deleting the same missing key from the S3
backend returns `True`.) -/
theorem local_delete_missing_returns_false :
    (local_delete_file ⟨[]⟩ "instance/voice_recordings" "rec-7.webm").2 = false ∧
    (s3_delete_file ⟨[]⟩ "ws-general" "rec-7.webm").2 = true := by
  constructor
  · decide
  · decide

/-- **C9 (amended).** Deleting an absent key leaves either store unchanged;
the S3 implementation reports success (`True`) — delete is idempotent
there — while the local implementation reports failure (`False`). -/
theorem delete_file_missing_key (st : S3State) (fs : LocalFs)
    (ws fn base lf : String)
    (hs3 : ∀ p ∈ st.objects, p.1 ≠ s3_key ws fn)
    (hl : fs_exists fs (local_file_path base lf) = false) :
    s3_delete_file st ws fn = (st, true) ∧
    local_delete_file fs base lf = (fs, false) := by
  constructor
  · unfold s3_delete_file
    have : st.objects.filter (fun p => p.1 != s3_key ws fn) = st.objects := by
      apply List.filter_eq_self.mpr
      intro p hp
      simpa using hs3 p hp
    rw [this]
  · unfold local_delete_file
    simp [hl]

theorem delete_file_missing_key_witness :
    (∀ p ∈ ([("ws-general/recordings/a.webm", [1, 2])] :
        List (String × List Nat)), p.1 ≠ s3_key "ws-general" "b.webm") ∧
    fs_exists ⟨[("uploads/a.webm", [1])]⟩ (local_file_path "uploads" "b.webm") = false ∧
    (s3_delete_file ⟨[("ws-general/recordings/a.webm", [1, 2])]⟩ "ws-general" "b.webm" =
       (⟨[("ws-general/recordings/a.webm", [1, 2])]⟩, true) ∧
     local_delete_file ⟨[("uploads/a.webm", [1])]⟩ "uploads" "b.webm" =
       (⟨[("uploads/a.webm", [1])]⟩, false)) :=
  ⟨by decide, by decide,
    delete_file_missing_key ⟨[("ws-general/recordings/a.webm", [1, 2])]⟩
      ⟨[("uploads/a.webm", [1])]⟩ "ws-general" "b.webm" "uploads" "b.webm"
      (by decide) (by decide)⟩

/-! ### `generate_transcript` (`src/app.py` lines 2271-2343)

`VoiceRecording` row (lines 327-337); the Speech-to-Text call
(`convert_audio_to_transcript`) is an external collaborator, passed in as
its outcome. -/

structure VoiceRecordingRow where
  id : Nat
  workspace_id : String
  voice_note_id : Nat
  filename : String
  original_name : Option String
  file_size : Option Nat
  duration : Option Nat
  content_type : String
  transcription : Option String
  created_at : Nat
deriving DecidableEq, Repr

/-- Python truthiness of the nullable `transcription` text column:
`NULL` and the empty string are falsy. -/
def truthyText : Option String → Bool
  | none => false
  | some s => s != ""

/-- Outcome of `convert_audio_to_transcript` (lines 921 ff.): a transcript
text, or an error message (API failure, missing key, missing file…). -/
inductive SttOutcome where
  | ok (text : String) : SttOutcome
  | err (msg : String) : SttOutcome
deriving DecidableEq, Repr

/-- The JSON reply of `generate_transcript`; `language_code` /
`language_probability` of the fresh path are omitted, `cached` is absent
(`none`) in the failure reply. -/
structure TranscriptResponse where
  success : Bool
  transcript : Option String
  cached : Option Bool
  message : String
deriving DecidableEq, Repr

/-- `generate_transcript` (`src/app.py` lines 2271-2343) for an existing
recording: if `recording.transcription` is truthy, return it with
`cached=True` and touch nothing; otherwise run Speech-to-Text and, on
success, store the text and commit. -/
def generate_transcript (rec : VoiceRecordingRow) (stt : SttOutcome) :
    VoiceRecordingRow × TranscriptResponse :=
  if truthyText rec.transcription then
    (rec, { success := true, transcript := rec.transcription, cached := some true,
            message := "النص المكتوب متوفر مسبقاً" })
  else
    match stt with
    | SttOutcome.ok text =>
      ({ rec with transcription := some text },
       { success := true, transcript := some text, cached := some false,
         message := "تم تحويل التسجيل إلى نص بنجاح" })
    | SttOutcome.err e =>
      (rec, { success := false, transcript := none, cached := none,
              message := "فشل في تحويل التسجيل: " ++ e })

/-- **C10.** Transcript generation is idempotent and write-once: when the
recording already has a stored (truthy) transcription, `generate_transcript`
returns that stored text with `cached = true`, leaves the row — and hence
all persisted state — unchanged, and its result does not depend on the
Speech-to-Text backend at all (it is never called); in particular a stored
transcription is never overwritten by a later call. -/
theorem generate_transcript_cached (rec : VoiceRecordingRow)
    (stt stt' : SttOutcome) (h : truthyText rec.transcription = true) :
    (generate_transcript rec stt).1 = rec ∧
    (generate_transcript rec stt).2.transcript = rec.transcription ∧
    (generate_transcript rec stt).2.cached = some true ∧
    (generate_transcript rec stt).2.success = true ∧
    generate_transcript rec stt = generate_transcript rec stt' := by
  unfold generate_transcript
  simp [h]

def recC10 : VoiceRecordingRow :=
  { id := 11, workspace_id := "ws-general", voice_note_id := 4,
    filename := "rec-11.webm", original_name := some "voice.webm",
    file_size := some 52100, duration := some 12, content_type := "audio/webm",
    transcription := some "نص محفوظ سابقاً", created_at := 0 }

theorem generate_transcript_cached_witness :
    truthyText recC10.transcription = true ∧
    ((generate_transcript recC10 (SttOutcome.ok "نص جديد")).1 = recC10 ∧
     (generate_transcript recC10 (SttOutcome.ok "نص جديد")).2.transcript =
       recC10.transcription ∧
     (generate_transcript recC10 (SttOutcome.ok "نص جديد")).2.cached = some true ∧
     (generate_transcript recC10 (SttOutcome.ok "نص جديد")).2.success = true ∧
     generate_transcript recC10 (SttOutcome.ok "نص جديد") =
       generate_transcript recC10 (SttOutcome.err "فشل")) :=
  ⟨by decide,
    generate_transcript_cached recC10 (SttOutcome.ok "نص جديد")
      (SttOutcome.err "فشل") (by decide)⟩

end LiblabNotion
